import Mathlib

/-!
Verification of the message-dispatch core of a single-node distributed-systems
participant (`src/main.rs`): the typed envelope/payload model, the Init
handshake (`Node::from_init`) and the per-message dispatch (`Node::process`).

Modelling conventions:
* `usize` is modelled as `Nat`; the node's `AtomicUsize` counter wraps modulo
  `2^64` on `fetch_add` (the 64-bit `usize` of the target platform), written
  explicitly as `% usizeSize`.
* `HashSet` fields become `Finset`; `Vec<String>.into_iter().collect()`
  becomes `List.toFinset` (deduplication).
* `Uuid::new_v4()` is a fresh random string; `process` takes the string that
  the uuid generator would return in that call as an explicit argument.
* `Result<Message>` where the only failure is the `panic!` at the end of the
  dispatch match becomes `Option (Message × Node)`, with `none` standing for
  the panic; likewise `from_init`'s `Err` branch becomes `none`.
  State mutation through `&mut self` becomes returning the new `Node`.
-/

namespace DistSys

/-- The modulus of 64-bit `usize` arithmetic. -/
def usizeSize : Nat := 2 ^ 64

/-- The `Payload` enum of `src/main.rs` (tagged union of message variants). -/
inductive Payload where
  | Echo (echo : String)
  | EchoOk (echo : String)
  | Init (node_id : String) (node_ids : List String)
  | InitOk
  | Generate
  | GenerateOk (id : String)
  | Broadcast (message : Nat)
  | BroadcastOk
  | Topology (topology : List (String × List String))
  | TopologyOk
  | Read
  | ReadOk (value : Nat)
  | Add (delta : Nat)
  | AddOk
  | Error (code : Nat) (text : String)
  deriving Repr, DecidableEq

/-- The `Body` struct: optional correlation ids plus the payload. -/
structure Body where
  id : Option Nat
  in_reply_to : Option Nat
  payload : Payload
  deriving Repr, DecidableEq

/-- The `Message` envelope: `src`, `dst` (serialized as `dest`) and a body. -/
structure Message where
  src : String
  dst : String
  body : Body
  deriving Repr, DecidableEq

/-- The `Node` struct: identity, peer set, broadcast set, counter. -/
structure Node where
  id : String
  node_ids : Finset String
  messages : Finset Nat
  g_counter : Nat
  deriving DecidableEq

/-- `Node::from_init`: accepts only an `Init` payload, returns the `InitOk`
reply and the freshly built node; any other payload is the `Err` branch. -/
def Node.from_init (msg : Message) : Option (Message × Node) :=
  match msg.body.payload with
  | Payload.Init node_id node_ids =>
      some
        (⟨msg.dst, msg.src, ⟨none, msg.body.id, Payload.InitOk⟩⟩,
         ⟨node_id, node_ids.toFinset, ∅, 0⟩)
  | _ => none

/-- `Node::process`: dispatch of one incoming message on an initialized node.
`fresh` is the string `Uuid::new_v4().hyphenated().to_string()` would
produce in this call. `none` is the `panic!("Unrecognized msg type")`. -/
def Node.process (node : Node) (fresh : String) (msg : Message) :
    Option (Message × Node) :=
  if msg.dst ≠ node.id then
    some
      (⟨node.id, msg.src,
        ⟨none, msg.body.id,
         Payload.Error 1001 "Destination does not match this node_id"⟩⟩,
       node)
  else
    match msg.body.payload with
    | Payload.Init _ _ =>
        some
          (⟨node.id, msg.src,
            ⟨none, msg.body.id, Payload.Error 1002 "Node already initialized"⟩⟩,
           node)
    | Payload.Echo echo =>
        some
          (⟨node.id, msg.src,
            ⟨msg.body.id, msg.body.id, Payload.EchoOk echo⟩⟩,
           node)
    | Payload.Generate =>
        some
          (⟨node.id, msg.src,
            ⟨msg.body.id, msg.body.id, Payload.GenerateOk fresh⟩⟩,
           node)
    | Payload.Broadcast message =>
        some
          (⟨node.id, msg.src,
            ⟨msg.body.id, msg.body.id, Payload.BroadcastOk⟩⟩,
           { node with messages := insert message node.messages })
    | Payload.Read =>
        some
          (⟨node.id, msg.src,
            ⟨msg.body.id, msg.body.id, Payload.ReadOk node.g_counter⟩⟩,
           node)
    | Payload.Topology _ =>
        some
          (⟨node.id, msg.src,
            ⟨msg.body.id, msg.body.id, Payload.TopologyOk⟩⟩,
           node)
    | Payload.Add delta =>
        some
          (⟨node.id, msg.src,
            ⟨msg.body.id, msg.body.id, Payload.AddOk⟩⟩,
           { node with g_counter := (node.g_counter + delta) % usizeSize })
    | _ => none

/-- The dispatch loop of `main` on a list of already-decoded messages, each
paired with the uuid string its `process` call would draw; replies are
collected in order. -/
def Node.processAll (node : Node) :
    List (String × Message) → Option (List Message × Node)
  | [] => some ([], node)
  | (u, m) :: rest => do
      let (r, n') ← node.process u m
      let (rs, n'') ← n'.processAll rest
      pure (r :: rs, n'')

/-- The delta of an `Add` payload, if any. -/
def Payload.addDelta : Payload → Option Nat
  | Payload.Add d => some d
  | _ => none

/-- Request variants of the protocol (the ones a client sends to the node). -/
def Payload.isRequest : Payload → Bool
  | Payload.Init _ _ => true
  | Payload.Echo _ => true
  | Payload.Generate => true
  | Payload.Broadcast _ => true
  | Payload.Read => true
  | Payload.Topology _ => true
  | Payload.Add _ => true
  | _ => false

/-! Concrete fixtures used by witnesses and counterexamples. -/

/-- A node as built by `from_init` on the scenario Init message of the spec. -/
def cNode : Node := ⟨"n0", (["n0"] : List String).toFinset, ∅, 0⟩

/-- The scenario Init message. -/
def cInitMsg : Message := ⟨"c1", "n0", ⟨some 1, none, Payload.Init "n0" ["n0"]⟩⟩

/-- The scenario Echo message. -/
def cEchoMsg : Message := ⟨"c1", "n0", ⟨some 2, none, Payload.Echo "hi"⟩⟩

/-- An Echo message whose `dst` is not the node's id. -/
def cMismatchMsg : Message := ⟨"c1", "n1", ⟨some 3, none, Payload.Echo "x"⟩⟩

/-- A Read message addressed to the node. -/
def cReadMsg : Message := ⟨"c1", "n0", ⟨some 4, none, Payload.Read⟩⟩

/-- A second Init addressed to the already-initialized node. -/
def cReInitMsg : Message := ⟨"c1", "n0", ⟨some 5, none, Payload.Init "n0" ["n0"]⟩⟩

/-- An Add message with delta 5 addressed to the node. -/
def cAddMsg : Message := ⟨"c1", "n0", ⟨some 6, none, Payload.Add 5⟩⟩

/-- A Broadcast of value 7 addressed to the node. -/
def cBcastMsg : Message := ⟨"c1", "n0", ⟨some 7, none, Payload.Broadcast 7⟩⟩

/-- A Topology message addressed to the node. -/
def cTopoMsg : Message :=
  ⟨"c1", "n0", ⟨some 8, none, Payload.Topology [("n0", ["n0"])]⟩⟩

/-- An Add message whose delta is `2^63`, addressed to the node. -/
def cAddBig : Message := ⟨"c1", "n0", ⟨some 9, none, Payload.Add (2 ^ 63)⟩⟩

/-- C5: Echo is a pure round-trip: on an initialized node, an Echo message
addressed to the node yields EchoOk with the identical string, the reply
body's id and in_reply_to both set to the incoming body's id, and the node
state unchanged (the returned node is the input node itself). -/
theorem echo_roundtrip (node : Node) (u s : String) (msg : Message)
    (hdst : msg.dst = node.id) (hp : msg.body.payload = Payload.Echo s) :
    node.process u msg =
      some (⟨node.id, msg.src,
        ⟨msg.body.id, msg.body.id, Payload.EchoOk s⟩⟩, node) := by
  simp [Node.process, hdst, hp]

/-- Witness for C5 at the spec's scenario Echo message. -/
theorem echo_roundtrip_witness :
    cNode.process "" cEchoMsg =
      some (⟨"n0", "c1", ⟨some 2, some 2, Payload.EchoOk "hi"⟩⟩, cNode) :=
  echo_roundtrip cNode "" "hi" cEchoMsg rfl rfl

/-- C8: Topology is accepted and ignored: a Topology message addressed to the
node replies TopologyOk unconditionally and the node state is returned
unchanged, so no subsequent behavior can depend on the mapping. -/
theorem topology_ignored (node : Node) (u : String)
    (t : List (String × List String)) (msg : Message)
    (hdst : msg.dst = node.id) (hp : msg.body.payload = Payload.Topology t) :
    node.process u msg =
      some (⟨node.id, msg.src,
        ⟨msg.body.id, msg.body.id, Payload.TopologyOk⟩⟩, node) := by
  simp [Node.process, hdst, hp]

/-- Witness for C8 at a concrete topology mapping. -/
theorem topology_ignored_witness :
    cNode.process "" cTopoMsg =
      some (⟨"n0", "c1", ⟨some 8, some 8, Payload.TopologyOk⟩⟩, cNode) :=
  topology_ignored cNode "" [("n0", ["n0"])] cTopoMsg rfl rfl

/-- C2: on a destination mismatch the node replies Error with code 1001 and
no state is mutated: the returned node is the input node itself, hence
counter, broadcast set, id and peer set are all unchanged. -/
theorem dst_mismatch_frame (node : Node) (u : String) (msg : Message)
    (hdst : msg.dst ≠ node.id) :
    ∃ text, node.process u msg =
      some (⟨node.id, msg.src,
        ⟨none, msg.body.id, Payload.Error 1001 text⟩⟩, node) :=
  ⟨"Destination does not match this node_id", by simp [Node.process, hdst]⟩

/-- Witness for C2: an Add with mismatched dst leaves the counter at 0. -/
theorem dst_mismatch_frame_witness :
    ∃ text, cNode.process "" (⟨"c1", "n1", ⟨some 3, none, Payload.Add 5⟩⟩) =
      some (⟨"n0", "c1", ⟨none, some 3, Payload.Error 1001 text⟩⟩, cNode) :=
  dst_mismatch_frame cNode "" ⟨"c1", "n1", ⟨some 3, none, Payload.Add 5⟩⟩
    (by decide)

/-- C7 counterexample: the destination-mismatch reply's text is
"Destination does not match this node_id", not "destination mismatch" as the
claim states, so the claimed exact reply is not produced. -/
theorem dst_mismatch_text_cex :
    cNode.process "" cMismatchMsg =
      some (⟨"n0", "c1",
        ⟨none, some 3,
         Payload.Error 1001 "Destination does not match this node_id"⟩⟩,
        cNode) ∧
    "Destination does not match this node_id" ≠ "destination mismatch" :=
  ⟨by decide, by decide⟩

/-- C7 amended: on a destination mismatch the reply is exactly Error with
code 1001 and text "Destination does not match this node_id", with src the
node's id, dst the incoming message's src, no body id, and in_reply_to the
incoming body's id. -/
theorem dst_mismatch_reply (node : Node) (u : String) (msg : Message)
    (hdst : msg.dst ≠ node.id) :
    node.process u msg =
      some (⟨node.id, msg.src,
        ⟨none, msg.body.id,
         Payload.Error 1001 "Destination does not match this node_id"⟩⟩,
        node) := by
  simp [Node.process, hdst]

/-- Witness for the amended C7 at a concrete mismatched message. -/
theorem dst_mismatch_reply_witness :
    cNode.process "" cMismatchMsg =
      some (⟨"n0", "c1",
        ⟨none, some 3,
         Payload.Error 1001 "Destination does not match this node_id"⟩⟩,
        cNode) :=
  dst_mismatch_reply cNode "" cMismatchMsg (by decide)

/-- C3 counterexample: the re-init reply's text is "Node already initialized",
not "already initialized" as the claim states. -/
theorem reinit_text_cex :
    cNode.process "" cReInitMsg =
      some (⟨"n0", "c1",
        ⟨none, some 5, Payload.Error 1002 "Node already initialized"⟩⟩,
        cNode) ∧
    "Node already initialized" ≠ "already initialized" :=
  ⟨by decide, by decide⟩

/-- C3 amended: a second Init addressed to an initialized node yields Error
with code 1002 and text "Node already initialized", and the node state — id,
peer set, counter and broadcast set — is returned unchanged: the node never
re-initializes. -/
theorem reinit_rejected (node : Node) (u nid : String) (nids : List String)
    (msg : Message) (hdst : msg.dst = node.id)
    (hp : msg.body.payload = Payload.Init nid nids) :
    node.process u msg =
      some (⟨node.id, msg.src,
        ⟨none, msg.body.id, Payload.Error 1002 "Node already initialized"⟩⟩,
        node) := by
  simp [Node.process, hdst, hp]

/-- Witness for the amended C3 at a concrete second Init. -/
theorem reinit_rejected_witness :
    cNode.process "" cReInitMsg =
      some (⟨"n0", "c1",
        ⟨none, some 5, Payload.Error 1002 "Node already initialized"⟩⟩,
        cNode) :=
  reinit_rejected cNode "" "n0" ["n0"] cReInitMsg rfl rfl

/-- An Init message whose `dst` differs from the node_id it carries. -/
def cInitOffId : Message := ⟨"c1", "x", ⟨some 1, none, Payload.Init "n0" ["n0", "n1"]⟩⟩

/-- C4 counterexample: `from_init` sets the reply's src to the incoming
message's dst, not to the newly assumed id: on an Init whose dst is "x" but
whose node_id is "n0", the reply's src is "x" while the node's id is "n0". -/
theorem from_init_src_cex :
    Node.from_init cInitOffId =
      some (⟨"x", "c1", ⟨none, some 1, Payload.InitOk⟩⟩,
            ⟨"n0", (["n0", "n1"] : List String).toFinset, ∅, 0⟩) ∧
    "x" ≠ "n0" :=
  ⟨by decide, by decide⟩

/-- C4 amended: `from_init` on an Init payload returns a reply whose src is
the incoming message's dst (equal to the assumed node_id only when the Init
is addressed to it), whose dst is the Init message's src, whose payload is
InitOk, whose in_reply_to is the Init body's id and whose body has no id;
the node's id is set to node_id and its peer set to the deduplicated
node_ids; the broadcast set is empty and the counter 0. -/
theorem from_init_spec (msg : Message) (nid : String) (nids : List String)
    (hp : msg.body.payload = Payload.Init nid nids) :
    Node.from_init msg =
      some (⟨msg.dst, msg.src, ⟨none, msg.body.id, Payload.InitOk⟩⟩,
            ⟨nid, nids.toFinset, ∅, 0⟩) := by
  simp [Node.from_init, hp]

/-- Witness for the amended C4 at the spec's scenario Init message. -/
theorem from_init_spec_witness :
    Node.from_init cInitMsg =
      some (⟨"n0", "c1", ⟨none, some 1, Payload.InitOk⟩⟩,
            ⟨"n0", (["n0"] : List String).toFinset, ∅, 0⟩) :=
  from_init_spec cInitMsg "n0" ["n0"] rfl

/-- C6: Broadcast is idempotent on the set: two Broadcasts of the same value
addressed to the node each return BroadcastOk, and the second leaves the node
— in particular the broadcast set and its size — exactly as after the first. -/
theorem broadcast_idempotent (node : Node) (u1 u2 : String) (v : Nat)
    (m1 m2 : Message)
    (h1d : m1.dst = node.id) (h1p : m1.body.payload = Payload.Broadcast v)
    (h2d : m2.dst = node.id) (h2p : m2.body.payload = Payload.Broadcast v) :
    ∃ r1 n1 r2 n2,
      node.process u1 m1 = some (r1, n1) ∧
      n1.process u2 m2 = some (r2, n2) ∧
      r1.body.payload = Payload.BroadcastOk ∧
      r2.body.payload = Payload.BroadcastOk ∧
      n2 = n1 ∧ n2.messages.card = n1.messages.card := by
  have e1 : node.process u1 m1 =
      some (⟨node.id, m1.src, ⟨m1.body.id, m1.body.id, Payload.BroadcastOk⟩⟩,
            { node with messages := insert v node.messages }) := by
    simp [Node.process, h1d, h1p]
  have e2 : ({ node with messages := insert v node.messages } : Node).process
        u2 m2 =
      some (⟨node.id, m2.src, ⟨m2.body.id, m2.body.id, Payload.BroadcastOk⟩⟩,
            { node with messages := insert v (insert v node.messages) }) := by
    simp [Node.process, h2d, h2p]
  refine ⟨_, _, _, _, e1, e2, rfl, rfl, ?_, ?_⟩
  · rw [Finset.insert_idem]
  · rw [Finset.insert_idem]

/-- Witness for C6: broadcasting 7 twice to the concrete node. -/
theorem broadcast_idempotent_witness :
    ∃ r1 n1 r2 n2,
      cNode.process "" cBcastMsg = some (r1, n1) ∧
      n1.process "" cBcastMsg = some (r2, n2) ∧
      r1.body.payload = Payload.BroadcastOk ∧
      r2.body.payload = Payload.BroadcastOk ∧
      n2 = n1 ∧ n2.messages.card = n1.messages.card :=
  broadcast_idempotent cNode "" "" 7 cBcastMsg cBcastMsg rfl rfl rfl rfl

/-- C9: for every request-variant payload (Init, Echo, Generate, Broadcast,
Read, Topology, Add), `process` returns Ok with exactly one outgoing message;
the panic branch at the end of the dispatch match is not reached. -/
theorem requests_never_panic (node : Node) (u : String) (msg : Message)
    (h : msg.body.payload.isRequest = true) :
    ∃ reply node', node.process u msg = some (reply, node') := by
  by_cases hd : msg.dst = node.id
  · cases hp : msg.body.payload <;>
      simp_all [Node.process, Payload.isRequest]
  · exact ⟨⟨node.id, msg.src,
      ⟨none, msg.body.id,
       Payload.Error 1001 "Destination does not match this node_id"⟩⟩, node,
      by simp [Node.process, hd]⟩

/-- Witness for C9 at the concrete Read message. -/
theorem requests_never_panic_witness :
    ∃ reply node', cNode.process "" cReadMsg = some (reply, node') :=
  requests_never_panic cNode "" cReadMsg rfl

/-- C10: whenever `process` returns a reply, the node's id and peer set are
unchanged — no payload variant mutates identity or membership. -/
theorem process_preserves_identity (node : Node) (u : String) (msg : Message)
    (r : Message) (n' : Node) (h : node.process u msg = some (r, n')) :
    n'.id = node.id ∧ n'.node_ids = node.node_ids := by
  by_cases hd : msg.dst = node.id
  · cases hp : msg.body.payload <;>
      simp_all [Node.process] <;> simp [← h.2]
  · simp only [Node.process, hd, if_pos, ite_not, if_neg, Option.some.injEq,
      Prod.mk.injEq] at h
    simp [Node.process, hd] at h
    simp [← h.2]

/-- Witness for C10 at a concrete Add, which mutates the counter but not the
identity fields. -/
theorem process_preserves_identity_witness :
    (⟨"n0", (["n0"] : List String).toFinset, ∅,
      (0 + 5) % usizeSize⟩ : Node).id = cNode.id ∧
    (⟨"n0", (["n0"] : List String).toFinset, ∅,
      (0 + 5) % usizeSize⟩ : Node).node_ids = cNode.node_ids :=
  process_preserves_identity cNode "" cAddMsg
    ⟨"n0", "c1", ⟨some 6, some 6, Payload.AddOk⟩⟩
    ⟨"n0", (["n0"] : List String).toFinset, ∅, (0 + 5) % usizeSize⟩
    (by decide)

theorem usize_pos : 0 < usizeSize := pow_pos (by norm_num) 64

theorem addDelta_eq_some {pl : Payload} {d : Nat}
    (h : Payload.addDelta pl = some d) : pl = Payload.Add d := by
  cases pl <;> simp_all [Payload.addDelta]

/-- `from_init` always starts the counter at 0. -/
theorem from_init_g_counter (im r0 : Message) (node : Node)
    (h : Node.from_init im = some (r0, node)) : node.g_counter = 0 := by
  cases hpl : im.body.payload <;> simp [Node.from_init, hpl] at h
  obtain ⟨-, h2⟩ := h
  subst h2
  rfl

/-- Running the dispatch loop on a list of Add messages addressed to the node
succeeds and accumulates the deltas into the counter modulo `2^64`, leaving
every other field unchanged. -/
theorem processAll_adds (ms : List (String × Message)) (node : Node)
    (hc : node.g_counter < usizeSize)
    (h : ∀ p ∈ ms, p.2.dst = node.id ∧
      (Payload.addDelta p.2.body.payload).isSome = true) :
    ∃ rs, node.processAll ms =
      some (rs, { node with g_counter :=
        (node.g_counter +
          (ms.map fun p => (Payload.addDelta p.2.body.payload).getD 0).sum) %
          usizeSize }) := by
  induction ms generalizing node with
  | nil =>
      refine ⟨[], ?_⟩
      simp [Node.processAll, Nat.mod_eq_of_lt hc]
  | cons p rest ih =>
      obtain ⟨hdst, hadd⟩ := h p (List.mem_cons_self p rest)
      obtain ⟨d, hd⟩ := Option.isSome_iff_exists.mp hadd
      have e1 : node.process p.1 p.2 =
          some (⟨node.id, p.2.src,
            ⟨p.2.body.id, p.2.body.id, Payload.AddOk⟩⟩,
            { node with g_counter := (node.g_counter + d) % usizeSize }) := by
        simp [Node.process, hdst, addDelta_eq_some hd]
      obtain ⟨rs, hrs⟩ :=
        ih { node with g_counter := (node.g_counter + d) % usizeSize }
          (Nat.mod_lt _ usize_pos)
          (fun q hq => h q (List.mem_cons_of_mem p hq))
      refine ⟨⟨node.id, p.2.src,
        ⟨p.2.body.id, p.2.body.id, Payload.AddOk⟩⟩ :: rs, ?_⟩
      simp only [Node.processAll, e1, hrs, Option.bind_eq_bind,
        Option.some_bind, Option.some.injEq, Prod.mk.injEq, List.map_cons,
        List.sum_cons, hd, Option.getD_some, true_and]
      simp [Nat.mod_add_mod, Nat.add_assoc]

/-- C1 amended: starting from a node built by `from_init`, processing any
sequence of Add messages addressed to the node and then a Read addressed to
the node yields ReadOk whose value is the sum of the deltas modulo `2^64`
(64-bit usize wrap-around); with no Adds the value is `0 % 2^64 = 0`. -/
theorem add_read_mod (im r0 : Message) (node : Node)
    (hinit : Node.from_init im = some (r0, node))
    (ms : List (String × Message))
    (hms : ∀ p ∈ ms, p.2.dst = node.id ∧
      (Payload.addDelta p.2.body.payload).isSome = true)
    (u : String) (rm : Message)
    (hrd : rm.dst = node.id) (hrp : rm.body.payload = Payload.Read) :
    ∃ rs node', node.processAll ms = some (rs, node') ∧
      node'.process u rm =
        some (⟨node.id, rm.src, ⟨rm.body.id, rm.body.id,
          Payload.ReadOk
            ((ms.map fun p => (Payload.addDelta p.2.body.payload).getD 0).sum %
              usizeSize)⟩⟩,
          node') := by
  have hc0 := from_init_g_counter im r0 node hinit
  obtain ⟨rs, hrs⟩ := processAll_adds ms node (by rw [hc0]; exact usize_pos) hms
  refine ⟨rs, _, hrs, ?_⟩
  simp [Node.process, hrd, hrp, hc0]

/-- Witness for the amended C1: one Add of 5 then a Read on the node built
from the scenario Init. -/
theorem add_read_mod_witness :
    ∃ rs node', cNode.processAll [("", cAddMsg)] = some (rs, node') ∧
      node'.process "" cReadMsg =
        some (⟨"n0", "c1", ⟨some 4, some 4,
          Payload.ReadOk
            ((([("", cAddMsg)] : List (String × Message)).map
                fun p => (Payload.addDelta p.2.body.payload).getD 0).sum %
              usizeSize)⟩⟩,
          node') :=
  add_read_mod cInitMsg ⟨"n0", "c1", ⟨none, some 1, Payload.InitOk⟩⟩ cNode rfl
    [("", cAddMsg)]
    (by
      rintro p hp
      rw [List.mem_singleton] at hp
      subst hp
      exact ⟨rfl, rfl⟩)
    "" cReadMsg rfl rfl

/-- The full run of the overflow scenario: two Adds of `2^63` then a Read,
projecting the Read reply's payload. -/
def runBigAdds : Option Payload :=
  match cNode.processAll [("", cAddBig), ("", cAddBig)] with
  | some (_, n') =>
      match n'.process "" cReadMsg with
      | some (rr, _) => some rr.body.payload
      | none => none
  | none => none

/-- C1 counterexample: after Adds with deltas 2^63 and 2^63 (both valid usize
values) the Read value is 0 by 64-bit wrap-around, not the exact sum
2^63 + 2^63 the claim demands. -/
theorem add_read_exact_cex :
    runBigAdds = some (Payload.ReadOk 0) ∧
    runBigAdds ≠ some (Payload.ReadOk (2 ^ 63 + 2 ^ 63)) :=
  ⟨by decide, by decide⟩

end DistSys
